import Mathlib

/-!
Shallow embedding of `src/toast/src/main.rs` (the entry point of the `toast`
build tool) together with the parts of its external collaborators that the
verified properties depend on: the `semver` 0.9 version parser/ordering, the
`v`-prefix trimming done with Rust's `str::trim_start_matches`, the crash
reporter (`MyPanicMessage::display` and `custom_url`), and a small file-system
model for the orchestrator's output-directory resolution and import-map
loading.  External OS / crate calls (URL construction, the import-map parser)
are passed in as explicit function arguments, mirroring the call boundary.
-/

namespace Toast

/-! ### Semantic versions (the `semver` 0.9 crate's data model) -/

/-- Embeds `semver::Identifier` (semver 0.9): one dot-separated pre-release or
build identifier, numeric or alphanumeric. -/
inductive Identifier where
  | numeric (n : Nat)
  | alphaNumeric (s : String)
deriving DecidableEq, Repr

/-- Embeds `semver::Version` (semver 0.9).  Rust's `u64` fields become `Nat`;
the parser enforces the `u64` bound explicitly. -/
structure Version where
  major : Nat
  minor : Nat
  patch : Nat
  pre : List Identifier
  build : List Identifier
deriving DecidableEq, Repr

/-- The exclusive upper bound of Rust's `u64`, i.e. `2^64`. -/
def u64Bound : Nat := 18446744073709551616

/-- Character class `[0-9A-Za-z-]` of semver identifiers. -/
def isIdentChar (c : Char) : Bool := c.isAlphanum || c = '-'

/-- Numeric value of a list of ASCII digits (most significant first). -/
def digitsToNat (cs : List Char) : Nat :=
  cs.foldl (fun acc c => acc * 10 + (c.toNat - '0'.toNat)) 0

/-- Embeds `semver_parser::common::numeric_identifier` (semver-parser 0.7.0):
either the single digit `0`, or a nonzero digit followed by any digits (no
leading zeros).  Returns the value and the unconsumed rest. -/
def numericIdentifier : List Char → Option (Nat × List Char)
  | [] => none
  | c :: cs =>
    if c = '0' then some (0, cs)
    else if c.isDigit then
      some (digitsToNat (c :: cs.takeWhile Char.isDigit), cs.dropWhile Char.isDigit)
    else none

/-- Embeds one pre-release/build identifier of semver-parser 0.7.0: the longest
nonempty run of `[0-9A-Za-z-]`; an all-digit run that fits in `u64` is numeric
(Rust's `str::parse::<u64>`, so leading zeros are tolerated), anything else is
alphanumeric. -/
def parseIdentifierChunk (s : List Char) : Option (Identifier × List Char) :=
  let chunk := s.takeWhile isIdentChar
  let rest := s.dropWhile isIdentChar
  if chunk.isEmpty then none
  else if chunk.all Char.isDigit ∧ digitsToNat chunk < u64Bound then
    some (.numeric (digitsToNat chunk), rest)
  else some (.alphaNumeric ⟨chunk⟩, rest)

/-- One or more dot-separated identifiers (the pre-release or build part of
semver-parser 0.7.0).  `fuel` bounds the recursion; callers pass the length of
the input plus one, which is always sufficient. -/
def parseIdentifierList : Nat → List Char → Option (List Identifier × List Char)
  | 0, _ => none
  | fuel + 1, s =>
    match parseIdentifierChunk s with
    | none => none
    | some (id, rest) =>
      match rest with
      | '.' :: rest2 =>
        match parseIdentifierList fuel rest2 with
        | none => none
        | some (ids, r) => some (id :: ids, r)
      | _ => some ([id], rest)

/-- Embeds the optional `+build` tail of semver-parser 0.7.0's version grammar;
the whole remaining input has to be consumed. -/
def parseBuildTail (major minor patch : Nat) (pre : List Identifier) :
    List Char → Option Version
  | [] => some ⟨major, minor, patch, pre, []⟩
  | '+' :: r =>
    match parseIdentifierList (r.length + 1) r with
    | some (build, []) => some ⟨major, minor, patch, pre, build⟩
    | _ => none
  | _ => none

/-- Embeds semver-parser 0.7.0's core version grammar
`major "." minor "." patch ("-" pre)? ("+" build)?` over an already trimmed
character list; each numeric field has to fit in `u64`. -/
def parseVersionChars (s : List Char) : Option Version :=
  match numericIdentifier s with
  | none => none
  | some (major, r1) =>
    if major < u64Bound then
      match r1 with
      | '.' :: r2 =>
        match numericIdentifier r2 with
        | none => none
        | some (minor, r3) =>
          if minor < u64Bound then
            match r3 with
            | '.' :: r4 =>
              match numericIdentifier r4 with
              | none => none
              | some (patch, r5) =>
                if patch < u64Bound then
                  match r5 with
                  | '-' :: r6 =>
                    match parseIdentifierList (r6.length + 1) r6 with
                    | none => none
                    | some (pre, r7) => parseBuildTail major minor patch pre r7
                  | _ => parseBuildTail major minor patch [] r5
                else none
            | _ => none
          else none
      | _ => none
    else none

/-- Rust's `char::is_whitespace` (the Unicode `White_Space` property),
restricted to its actual member code points. -/
def isRustWhitespace (c : Char) : Bool :=
  (9 ≤ c.toNat ∧ c.toNat ≤ 13) || c.toNat = 32 || c.toNat = 133 || c.toNat = 160 ||
  c.toNat = 5760 || (8192 ≤ c.toNat ∧ c.toNat ≤ 8202) || c.toNat = 8232 ||
  c.toNat = 8233 || c.toNat = 8239 || c.toNat = 8287 || c.toNat = 12288

/-- Rust's `str::trim`: drop leading and trailing whitespace. -/
def rustTrim (s : String) : String :=
  ⟨((s.data.dropWhile isRustWhitespace).reverse.dropWhile isRustWhitespace).reverse⟩

/-- Embeds `semver::Version::parse` (semver 0.9, delegating to
`semver_parser::version::parse` of semver-parser 0.7.0): trim surrounding
whitespace, then the whole remaining string has to match the version grammar. -/
def Version.parse (s : String) : Option Version :=
  parseVersionChars (rustTrim s).data

/-! ### Ordering (semver 0.9's `Ord for Version`) -/

/-- Three-way comparison on `Nat`, standing in for Rust's `u64::cmp`. -/
def compareNat (a b : Nat) : Ordering :=
  if a < b then .lt else if b < a then .gt else .eq

/-- Byte-lexicographic comparison of identifier text (all identifier characters
are ASCII, so code-point order coincides with Rust's byte order on `String`). -/
def compareCharList : List Char → List Char → Ordering
  | [], [] => .eq
  | [], _ :: _ => .lt
  | _ :: _, [] => .gt
  | a :: as, b :: bs =>
    match compareNat a.toNat b.toNat with
    | .eq => compareCharList as bs
    | o => o

/-- Embeds the derived `Ord for semver::Identifier`: `Numeric` sorts below
`AlphaNumeric`; within a constructor the payloads are compared. -/
def compareIdentifier : Identifier → Identifier → Ordering
  | .numeric a, .numeric b => compareNat a b
  | .numeric _, .alphaNumeric _ => .lt
  | .alphaNumeric _, .numeric _ => .gt
  | .alphaNumeric a, .alphaNumeric b => compareCharList a.data b.data

/-- Rust's lexicographic `Ord for Vec<Identifier>`. -/
def compareIdentifierList : List Identifier → List Identifier → Ordering
  | [], [] => .eq
  | [], _ :: _ => .lt
  | _ :: _, [] => .gt
  | a :: as, b :: bs =>
    match compareIdentifier a b with
    | .eq => compareIdentifierList as bs
    | o => o

/-- Embeds `Ord for semver::Version` (semver 0.9): major, minor, patch, then
the special pre-release rule (a release outranks any pre-release of the same
triple); build metadata is ignored. -/
def Version.compare (a b : Version) : Ordering :=
  match compareNat a.major b.major with
  | .eq =>
    match compareNat a.minor b.minor with
    | .eq =>
      match compareNat a.patch b.patch with
      | .eq =>
        match a.pre, b.pre with
        | [], [] => .eq
        | [], _ :: _ => .gt
        | _ :: _, [] => .lt
        | _, _ => compareIdentifierList a.pre b.pre
      | o => o
    | o => o
  | o => o

/-- Embeds `Display for semver::Identifier`. -/
def Identifier.display : Identifier → String
  | .numeric n => toString n
  | .alphaNumeric s => s

/-- Embeds `Display for semver::Version`:
`major.minor.patch`, then `-pre` and `+build` when nonempty. -/
def Version.display (v : Version) : String :=
  toString v.major ++ "." ++ toString v.minor ++ "." ++ toString v.patch ++
  (if v.pre.isEmpty then ""
   else "-" ++ String.intercalate "." (v.pre.map Identifier.display)) ++
  (if v.build.isEmpty then ""
   else "+" ++ String.intercalate "." (v.build.map Identifier.display))

/-! ### The version gate (`check_node_version`) -/

/-- Rust's `str::trim_start_matches("v")`: repeatedly remove the prefix `"v"`,
i.e. drop the whole leading run of `v` characters. -/
def trim_start_matches_v (s : String) : String :=
  ⟨s.data.dropWhile (fun c => c = 'v')⟩

/-- Embeds the local `minimum_required_node_major_version` value of
`check_node_version`: version 14.0.0 with empty `pre` and `build`. -/
def minimum_required_node_major_version : Version := ⟨14, 0, 0, [], []⟩

/-- Embeds `check_node_version` from the point where the stdout of `node -v`
has been decoded to a string (the subprocess call and UTF-8 decoding are the
external part; their failures short-circuit before this logic runs).  Errors
are the exact `eyre!` message strings built by the source. -/
def check_node_version (version_string : String) : Except String Unit :=
  let version_string_trimmed := trim_start_matches_v version_string
  match Version.parse version_string_trimmed with
  | some current_node_version =>
    if Version.compare current_node_version minimum_required_node_major_version = .lt then
      .error ("node version " ++ current_node_version.display ++
        " doesn\x27t meet the minimum required version " ++
        minimum_required_node_major_version.display)
    else .ok ()
  | none =>
    .error ("Couldn\x27t parse node version from trimmed version `" ++
      version_string_trimmed ++ "`, original string is `" ++ version_string ++ "`")

/-! ### The crash reporter (`MyPanicMessage::display` and `custom_url`) -/

/-- The dynamic type of a panic payload, as far as the reporter's two
`downcast_ref` probes can distinguish it: an owned `String`, a borrowed
`&str`, or anything else. -/
inductive PanicPayload where
  | ownedString (s : String)
  | borrowedStr (s : String)
  | other
deriving DecidableEq, Repr

/-- Embeds `pi.payload().downcast_ref::<String>()`: succeeds exactly on an
owned `String` payload. -/
def downcast_string : PanicPayload → Option String
  | .ownedString s => some s
  | _ => none

/-- Embeds `pi.payload().downcast_ref::<&str>().cloned()`: succeeds exactly on
a borrowed `&str` payload. -/
def downcast_str : PanicPayload → Option String
  | .borrowedStr s => some s
  | _ => none

/-- Embeds the payload-extraction chain of `MyPanicMessage::display`:
`downcast_ref::<String>() .or_else(downcast_ref::<&str>()) .unwrap_or(...)`. -/
def extract_payload (p : PanicPayload) : String :=
  ((downcast_string p).orElse (fun _ => downcast_str p)).getD "<non string panic payload>"

/-- Embeds `std::panic::Location`: file, line and column of the panic site. -/
structure Location where
  file : String
  line : Nat
  column : Nat
deriving DecidableEq, Repr

/-- Embeds `Display for std::panic::Location`: `file:line:column` (used when
the location is interpolated into the issue body). -/
def Location.display (loc : Location) : String :=
  loc.file ++ ":" ++ toString loc.line ++ ":" ++ toString loc.column

/-- Embeds `std::panic::PanicInfo` as far as the reporter reads it: the
payload and the optional panic location. -/
structure PanicInfo where
  payload : PanicPayload
  location : Option Location
deriving DecidableEq, Repr

/-- Embeds `owo_colors`' `.red()` styling: wrap in the ANSI red-foreground
escape sequence. -/
def red (s : String) : String := "\x1b[31m" ++ s ++ "\x1b[0m"

/-- Embeds `owo_colors`' `.cyan()` styling. -/
def cyan (s : String) : String := "\x1b[36m" ++ s ++ "\x1b[0m"

/-- Embeds `owo_colors`' `.purple()` styling. -/
def purple (s : String) : String := "\x1b[35m" ++ s ++ "\x1b[0m"

/-- The fixed issue-submission endpoint used by `custom_url`. -/
def issueEndpoint : String := "https://github.com/christopherBiscardi/toast/issues/new"

/-- Embeds the `format!` template for the `body` query parameter of
`custom_url`: a Markdown metadata table followed by a `More info` section. -/
def issueBody (version os_type_s os_release_s message location_s : String) : String :=
  "## Metadata\n|key|value|\n|--|--|\n|**version**|" ++ version ++
  "|\n|**os_type**|" ++ os_type_s ++ "|\n|**os_release**|" ++ os_release_s ++
  "|\n|**message**|" ++ message ++ "|\n|**location**|" ++ location_s ++
  "|\n## More info\n"

/-- The signature of the external `Url::parse_with_params` call: base URL and
query parameters in, either a rendered URL or a failure. -/
def UrlBuilder : Type := String → List (String × String) → Option String

/-- Embeds `custom_url`.  The external pieces are explicit arguments: the
`url` crate's `parse_with_params` (`builder`), the compile-time
`CARGO_PKG_VERSION` string (`version`), and the best-effort `sys_info`
results (`os_type_r`, `os_release_r`, each `unavailable` on failure, exactly
as `unwrap_or` does).  On a construction failure the bare endpoint URL is
returned instead. -/
def custom_url (builder : UrlBuilder) (version : String)
    (os_type_r os_release_r : Option String) (location : Location)
    (message : String) : String :=
  let url_result := builder issueEndpoint
    [("title", "<autogenerated-issue>"),
     ("body", issueBody version (os_type_r.getD "unavailable")
        (os_release_r.getD "unavailable") message location.display)]
  match url_result with
  | some url_struct => url_struct
  | none => "https://github.com/christopherBiscardi/toast/issues/new"

/-- Embeds `MyPanicMessage::display`: the full text written to the formatter
(`writeln!` contributing the newlines, the styling helpers the ANSI codes).
When a location is known it is rendered as `file:line` and the issue link is
appended; otherwise the literal `<unknown>` is rendered and no link is
built. -/
def display_panic_message (builder : UrlBuilder) (version : String)
    (os_type_r os_release_r : Option String) (pi : PanicInfo) : String :=
  let payload := extract_payload pi.payload
  red "The application panicked (crashed)." ++ "\n" ++
  "Message:  " ++ cyan payload ++ "\n" ++
  "Location: " ++
  (match pi.location with
   | some loc =>
     purple loc.file ++ ":" ++ purple (toString loc.line) ++
     "\n\nConsider reporting the bug using this URL: " ++
     cyan (custom_url builder version os_type_r os_release_r loc payload)
   | none => "<unknown>")

/-! ### Paths and a file-system model for the orchestrator -/

/-- A file-system path: an absolute/relative flag plus components, standing in
for Rust's `PathBuf`. -/
structure Path where
  absolute : Bool
  components : List String
deriving DecidableEq, Repr

/-- Embeds `PathBuf::join`: an absolute argument replaces the receiver, a
relative one is appended. -/
def Path.join (p q : Path) : Path :=
  if q.absolute then q else ⟨p.absolute, p.components ++ q.components⟩

/-- Embeds `Path::display`. -/
def Path.display (p : Path) : String :=
  (if p.absolute then "/" else "") ++ String.intercalate "/" p.components

/-- Resolve `.` and `..` components against an accumulator of already-resolved
components (`..` at the root stays at the root, as on a real Unix tree). -/
def normalizeAux (acc : List String) : List String → List String
  | [] => acc
  | c :: cs =>
    if c = "." then normalizeAux acc cs
    else if c = ".." then normalizeAux acc.dropLast cs
    else normalizeAux (acc ++ [c]) cs

/-- Canonical component list of a path: `.` and `..` resolved away. -/
def normalizeComponents (cs : List String) : List String := normalizeAux [] cs

/-- A model of the parts of the file system the orchestrator touches: the
current directory (for resolving relative paths), the set of existing
directories and the existing files with their contents, all keyed by
canonical absolute component lists.  Symbolic links are not modelled. -/
structure FileSystem where
  cwd : List String
  dirs : List (List String)
  files : List (List String × String)
deriving DecidableEq, Repr

/-- The canonical absolute component list a path denotes in this file
system. -/
def FileSystem.resolve (fs : FileSystem) (p : Path) : List String :=
  normalizeComponents ((if p.absolute then [] else fs.cwd) ++ p.components)

/-- All nonempty prefixes of a component list (the path itself and its
ancestors below the root). -/
def pathAncestors (cs : List String) : List (List String) :=
  (List.range cs.length).map (fun i => cs.take (i + 1))

/-- Whether a canonical component list names an existing file. -/
def FileSystem.isFile (fs : FileSystem) (cs : List String) : Bool :=
  fs.files.any (fun kv => kv.1 == cs)

/-- Whether a canonical component list exists at all (the root always does). -/
def FileSystem.entryExists (fs : FileSystem) (cs : List String) : Bool :=
  cs == [] || fs.dirs.contains cs || fs.isFile cs

/-- Embeds `std::fs::create_dir_all`: create the directory and every missing
ancestor; fail when a file occupies the path or one of its ancestors. -/
def FileSystem.create_dir_all (fs : FileSystem) (p : Path) :
    Except String FileSystem :=
  let target := fs.resolve p
  if (pathAncestors target).any (fun q => fs.isFile q) then
    .error "File exists (os error 17)"
  else
    .ok { fs with
          dirs := fs.dirs ++ (pathAncestors target).filter (fun q => !(fs.dirs.contains q)) }

/-- Embeds `Path::canonicalize`: the path has to exist; the result is its
absolute canonical form (no symbolic links in the model). -/
def FileSystem.canonicalize (fs : FileSystem) (p : Path) : Except String Path :=
  let target := fs.resolve p
  if fs.entryExists target then .ok ⟨true, target⟩
  else .error "No such file or directory (os error 2)"

/-- Embeds `std::fs::read_to_string`: the contents of the file at the path, or
a not-found failure. -/
def FileSystem.read_to_string (fs : FileSystem) (p : Path) : Except String String :=
  match fs.files.find? (fun kv => kv.1 == fs.resolve p) with
  | some kv => .ok kv.2
  | none => .error "No such file or directory (os error 2)"

/-! ### The orchestrator (the `Toast::Incremental` arm of `main`) -/

/-- Modelled from the spec: the import map of `toast::breadbox` (a module of
this repository that is not part of the available source) is "an opaque
mapping (module specifier → resolved location) parsed from external JSON
text"; only its boundary shape matters here. -/
structure ImportMap where
  imports : List (String × String)
deriving DecidableEq, Repr

/-- Embeds `IncrementalOpts`, the configuration record handed to the external
`incremental_compile` engine. -/
structure IncrementalOpts where
  debug : Bool
  project_root_dir : Path
  output_dir : Path
  npm_bin_dir : String
  import_map : ImportMap
deriving DecidableEq, Repr

/-- The relative path `public/web_modules/import-map.json` joined onto the
input directory by the orchestrator. -/
def import_map_filepath (input_dir : Path) : Path :=
  input_dir.join ⟨false, ["public", "web_modules", "import-map.json"]⟩

/-- Embeds the import-map block of `main`: read the file (wrapping a failure
with the attempted path), then run the external `parse_import_map`
(`breadbox`, passed in as an argument) and wrap its failure with the raw
content and the path.  `wrap_err_with` is rendered as `context: cause`. -/
def load_import_map (fs : FileSystem)
    (parse_import_map : String → Except String ImportMap) (input_dir : Path) :
    Except String ImportMap :=
  match fs.read_to_string (import_map_filepath input_dir) with
  | .error e =>
    .error ("Failed to read `import-map.json` from `" ++
      (import_map_filepath input_dir).display ++ "`: " ++ e)
  | .ok contents =>
    match parse_import_map contents with
    | .error e =>
      .error ("Failed to parse import map from content `" ++ contents ++
        "` at `" ++ (import_map_filepath input_dir).display ++ "`: " ++ e)
    | .ok im => .ok im

/-- Embeds the `output_dir` match of `main`: an explicitly supplied directory
is used verbatim; otherwise `<input_dir>/public` is created (failure wrapped
with the creation message and path) and canonicalized (failure wrapped with
the canonicalization message).  Returns the possibly extended file system and
the resolved directory. -/
def resolve_output_dir (fs : FileSystem) (input_dir : Path)
    (output_dir : Option Path) : Except String (FileSystem × Path) :=
  match output_dir with
  | some v => .ok (fs, v)
  | none =>
    let full_output_dir := input_dir.join ⟨false, ["public"]⟩
    match fs.create_dir_all full_output_dir with
    | .error e =>
      .error ("Failed create directories for path `" ++ full_output_dir.display ++
        "`: " ++ e)
    | .ok fs1 =>
      match fs1.canonicalize full_output_dir with
      | .error e => .error ("Failed canonicalize the output directory path: " ++ e)
      | .ok p => .ok (fs1, p)

/-- Embeds the `Toast::Incremental` arm of `main` up to the point where
`incremental_compile` is invoked: load and parse the import map, resolve the
output directory, and assemble the `IncrementalOpts` record handed to the
engine.  A success therefore means the run reaches the engine invocation with
exactly this configuration. -/
def assemble_config (fs : FileSystem)
    (parse_import_map : String → Except String ImportMap) (npm_bin_dir : String)
    (debug : Bool) (input_dir : Path) (output_dir : Option Path) :
    Except String (FileSystem × IncrementalOpts) :=
  match load_import_map fs parse_import_map input_dir with
  | .error e => .error e
  | .ok import_map =>
    match resolve_output_dir fs input_dir output_dir with
    | .error e => .error e
    | .ok (fs1, od) =>
      .ok (fs1,
        { debug := debug, project_root_dir := input_dir, output_dir := od,
          npm_bin_dir := npm_bin_dir, import_map := import_map })

/-! ### Helper lemmas on `dropWhile` and `takeWhile` -/

theorem dropWhile_append_of_all {α : Type} (w : α → Bool) (a b : List α)
    (h : a.all w = true) : (a ++ b).dropWhile w = b.dropWhile w := by
  induction a with
  | nil => rfl
  | cons c cs ih =>
    simp only [List.all_cons, Bool.and_eq_true] at h
    simp [List.dropWhile_cons, h.1, ih h.2]

theorem dropWhile_append_cases {α : Type} (w : α → Bool) (a b : List α) :
    (a ++ b).dropWhile w =
      if (a.dropWhile w).isEmpty then b.dropWhile w else a.dropWhile w ++ b := by
  induction a with
  | nil => rfl
  | cons c cs ih =>
    by_cases hc : w c = true
    · simpa [List.dropWhile_cons, hc] using ih
    · simp [List.dropWhile_cons, hc]

theorem dropWhile_eq_nil_of_all {α : Type} (w : α → Bool) (a : List α)
    (h : a.all w = true) : a.dropWhile w = [] := by
  have := dropWhile_append_of_all w a [] h
  simpa using this

theorem dropWhile_v_decomp (l : List Char) :
    ∃ n, l = List.replicate n 'v' ++ l.dropWhile (fun c => c = 'v') ∧
      (l.dropWhile (fun c => c = 'v')).takeWhile (fun c => c = 'v') = [] := by
  induction l with
  | nil => exact ⟨0, rfl, rfl⟩
  | cons c cs ih =>
    by_cases hc : c = 'v'
    · obtain ⟨n, h1, h2⟩ := ih
      subst hc
      refine ⟨n + 1, ?_, ?_⟩
      · simpa [List.replicate_succ, List.dropWhile_cons] using h1
      · simpa [List.dropWhile_cons] using h2
    · exact ⟨0, by simp [List.dropWhile_cons, hc], by simp [List.dropWhile_cons, List.takeWhile_cons, hc]⟩

theorem rustTrim_append_whitespace (s ws : String)
    (h : ws.data.all isRustWhitespace = true) : rustTrim (s ++ ws) = rustTrim s := by
  unfold rustTrim
  rw [String.data_append]
  rw [dropWhile_append_cases]
  by_cases he : (s.data.dropWhile isRustWhitespace).isEmpty = true
  · rw [if_pos he]
    rw [List.isEmpty_iff] at he
    rw [he, dropWhile_eq_nil_of_all isRustWhitespace ws.data h]
  · rw [if_neg (by simpa using he)]
    rw [List.reverse_append]
    rw [dropWhile_append_of_all isRustWhitespace ws.data.reverse _ (by simpa using h)]

/-! ### Theorems about the version gate -/

/-- C1: for every version string that parses after the `v`-stripping step, the
gate succeeds exactly when the parsed version is at least 14.0.0 in the
semantic-version total order; in particular `v14.0.0` passes while `v13.9.9`
and `v14.0.0-rc.1` are rejected as incompatible (a pre-release ranks below the
equivalent release). -/
theorem node_gate_passes_iff_version_ge_minimum :
    (∀ (s : String) (v : Version),
        Version.parse (trim_start_matches_v s) = some v →
        (check_node_version s = .ok () ↔
          Version.compare v minimum_required_node_major_version ≠ .lt)) ∧
    check_node_version "v14.0.0" = .ok () ∧
    check_node_version "v13.9.9" =
      .error "node version 13.9.9 doesn\x27t meet the minimum required version 14.0.0" ∧
    check_node_version "v14.0.0-rc.1" =
      .error "node version 14.0.0-rc.1 doesn\x27t meet the minimum required version 14.0.0" := by
  refine ⟨?_, by rfl, by rfl, by rfl⟩
  intro s v h
  simp only [check_node_version, h]
  by_cases hc : Version.compare v minimum_required_node_major_version = .lt
  · simp [hc]
  · simp [hc]

/-- Witness for C1 at the concrete gate input `v14.0.0`. -/
theorem node_gate_passes_iff_version_ge_minimum_witness :
    check_node_version "v14.0.0" = .ok () ↔
      Version.compare ⟨14, 0, 0, [], []⟩ minimum_required_node_major_version ≠ .lt :=
  node_gate_passes_iff_version_ge_minimum.1 "v14.0.0" ⟨14, 0, 0, [], []⟩ (by rfl)

/-- C3 counterexample: on the input `vv14.0.0` the string handed to the parser
is `14.0.0`, i.e. both leading `v` characters are gone — not the input with at
most one leading `v` removed — and the gate consequently passes. -/
theorem trim_v_single_strip_counterexample :
    trim_start_matches_v "vv14.0.0" = "14.0.0" ∧
    check_node_version "vv14.0.0" = .ok () ∧
    ("14.0.0" == "v14.0.0") = false ∧
    ("14.0.0" == "vv14.0.0") = false :=
  ⟨rfl, rfl, rfl, rfl⟩

/-- C3 as amended: before parsing, the gate strips the whole maximal leading
run of `v` characters (Rust's `trim_start_matches` removes the prefix
repeatedly), so the parsed string never starts with `v`. -/
theorem trim_v_strips_all_leading_vs (s : String) :
    ∃ n, s.data = List.replicate n 'v' ++ (trim_start_matches_v s).data ∧
      (trim_start_matches_v s).data.takeWhile (fun c => c = 'v') = [] := by
  simpa [trim_start_matches_v] using dropWhile_v_decomp s.data

/-- C6: on the version-query output `vabc` the gate fails, and its message
carries both the trimmed string `abc` and the original string `vabc`. -/
theorem gate_vabc_parse_failure_message :
    check_node_version "vabc" =
      .error ("Couldn\x27t parse node version from trimmed version `" ++ "abc" ++
        "`, original string is `" ++ "vabc" ++ "`") :=
  rfl

/-- C10 counterexample: the output `v14.0.0` followed by a newline passes the
gate instead of failing with a parse failure. -/
theorem gate_trailing_whitespace_counterexample :
    check_node_version "v14.0.0\n" = .ok () :=
  rfl

/-- C10 as amended: the semantic-version parser itself trims surrounding
whitespace (semver 0.9 leniency), so appending trailing whitespace to a
version-query output never changes the parse result, and `v14.0.0` plus a
newline passes the gate. -/
theorem parser_trims_trailing_whitespace :
    (∀ s ws : String, ws.data.all isRustWhitespace = true →
        Version.parse (s ++ ws) = Version.parse s) ∧
    check_node_version ("v14.0.0" ++ "\n") = .ok () := by
  refine ⟨?_, by rfl⟩
  intro s ws h
  unfold Version.parse
  rw [rustTrim_append_whitespace s ws h]

/-- Witness for C10 at the concrete input `14.0.0` with a newline appended. -/
theorem parser_trims_trailing_whitespace_witness :
    Version.parse ("14.0.0" ++ "\n") = Version.parse "14.0.0" :=
  parser_trims_trailing_whitespace.1 "14.0.0" "\n" (by decide)

/-! ### Theorems about the crash reporter -/

theorem display_panic_message_none_eq (b : UrlBuilder) (version : String)
    (osT osR : Option String) (p : PanicPayload) :
    display_panic_message b version osT osR ⟨p, none⟩ =
      red "The application panicked (crashed)." ++ "\n" ++
      "Message:  " ++ cyan (extract_payload p) ++ "\n" ++
      "Location: " ++ "<unknown>" :=
  rfl

theorem display_panic_message_some_eq (b : UrlBuilder) (version : String)
    (osT osR : Option String) (p : PanicPayload) (loc : Location) :
    display_panic_message b version osT osR ⟨p, some loc⟩ =
      red "The application panicked (crashed)." ++ "\n" ++
      "Message:  " ++ cyan (extract_payload p) ++ "\n" ++
      "Location: " ++ (purple loc.file ++ ":" ++ purple (toString loc.line) ++
        "\n\nConsider reporting the bug using this URL: " ++
        cyan (custom_url b version osT osR loc (extract_payload p))) :=
  rfl

/-- C4: the reporter's message extraction is the ordered fallback over the
payload's dynamic type — an owned `String` payload yields its text, otherwise
a borrowed `&str` payload yields its text, otherwise the fixed placeholder;
the owned-text probe (`downcast_string`) is the first operand of the
`orElse` chain and the borrowed-text probe only runs when it returns
nothing. -/
theorem panic_payload_extraction_fallback :
    (∀ s, extract_payload (.ownedString s) = s) ∧
    (∀ s, extract_payload (.borrowedStr s) = s) ∧
    extract_payload .other = "<non string panic payload>" ∧
    (∀ p, extract_payload p =
      ((downcast_string p).orElse (fun _ => downcast_str p)).getD
        "<non string panic payload>") :=
  ⟨fun _ => rfl, fun _ => rfl, rfl, fun _ => rfl⟩

/-- C9: when the panic location is unknown the reporter renders the literal
`<unknown>` and never consults the URL builder (the rendered text is the same
for every builder and contains no link section); when a location is known the
link is built and appended. -/
theorem unknown_location_renders_placeholder_and_skips_link :
    (∀ (b : UrlBuilder) (version : String) (osT osR : Option String)
        (p : PanicPayload),
        display_panic_message b version osT osR ⟨p, none⟩ =
          red "The application panicked (crashed)." ++ "\n" ++
          "Message:  " ++ cyan (extract_payload p) ++ "\n" ++
          "Location: " ++ "<unknown>") ∧
    (∀ (b : UrlBuilder) (version : String) (osT osR : Option String)
        (p : PanicPayload) (loc : Location),
        display_panic_message b version osT osR ⟨p, some loc⟩ =
          red "The application panicked (crashed)." ++ "\n" ++
          "Message:  " ++ cyan (extract_payload p) ++ "\n" ++
          "Location: " ++ (purple loc.file ++ ":" ++ purple (toString loc.line) ++
            "\n\nConsider reporting the bug using this URL: " ++
            cyan (custom_url b version osT osR loc (extract_payload p)))) :=
  ⟨fun b version osT osR p => display_panic_message_none_eq b version osT osR p,
   fun b version osT osR p loc => display_panic_message_some_eq b version osT osR p loc⟩

/-- C5: whenever the external URL construction fails, `custom_url` falls back
to the bare issue endpoint, and the crash report still renders in full with
the bare endpoint in the link position instead of propagating the failure. -/
theorem url_failure_falls_back_to_bare_endpoint (b : UrlBuilder)
    (version : String) (osT osR : Option String) (loc : Location)
    (p : PanicPayload)
    (hfail : b issueEndpoint
      [("title", "<autogenerated-issue>"),
       ("body", issueBody version (osT.getD "unavailable") (osR.getD "unavailable")
          (extract_payload p) loc.display)] = none) :
    custom_url b version osT osR loc (extract_payload p) =
      "https://github.com/christopherBiscardi/toast/issues/new" ∧
    display_panic_message b version osT osR ⟨p, some loc⟩ =
      red "The application panicked (crashed)." ++ "\n" ++
      "Message:  " ++ cyan (extract_payload p) ++ "\n" ++
      "Location: " ++ (purple loc.file ++ ":" ++ purple (toString loc.line) ++
        "\n\nConsider reporting the bug using this URL: " ++
        cyan "https://github.com/christopherBiscardi/toast/issues/new") := by
  have h1 : custom_url b version osT osR loc (extract_payload p) =
      "https://github.com/christopherBiscardi/toast/issues/new" := by
    simp only [custom_url, hfail]
  exact ⟨h1, by rw [display_panic_message_some_eq, h1]⟩

/-- Witness for C5: an always-failing URL builder at a concrete report. -/
theorem url_failure_falls_back_to_bare_endpoint_witness :
    custom_url (fun _ _ => none) "0.1.0" none none ⟨"foo.rs", 10, 5⟩
        (extract_payload (.borrowedStr "boom")) =
      "https://github.com/christopherBiscardi/toast/issues/new" :=
  (url_failure_falls_back_to_bare_endpoint (fun _ _ => none) "0.1.0" none none
    ⟨"foo.rs", 10, 5⟩ (.borrowedStr "boom") rfl).1

/-! ### Helper lemmas on path normalization and the file-system model -/

theorem mem_normalizeAux (l : List String) : ∀ acc : List String,
    (∀ x ∈ acc, x ≠ "." ∧ x ≠ "..") →
    ∀ x ∈ normalizeAux acc l, x ≠ "." ∧ x ≠ ".." := by
  induction l with
  | nil =>
    intro acc hacc x hx
    exact hacc x hx
  | cons c cs ih =>
    intro acc hacc x hx
    unfold normalizeAux at hx
    by_cases h1 : c = "."
    · rw [if_pos h1] at hx
      exact ih acc hacc x hx
    · rw [if_neg h1] at hx
      by_cases h2 : c = ".."
      · rw [if_pos h2] at hx
        exact ih acc.dropLast (fun y hy => hacc y (List.dropLast_subset acc hy)) x hx
      · rw [if_neg h2] at hx
        refine ih (acc ++ [c]) ?_ x hx
        intro y hy
        rcases List.mem_append.1 hy with h | h
        · exact hacc y h
        · simp only [List.mem_singleton] at h
          subst h
          exact ⟨h1, h2⟩

theorem normalizeAux_of_clean (l : List String) : ∀ acc : List String,
    (∀ x ∈ l, x ≠ "." ∧ x ≠ "..") → normalizeAux acc l = acc ++ l := by
  induction l with
  | nil =>
    intro acc _
    simp [normalizeAux]
  | cons c cs ih =>
    intro acc h
    have hc := h c (by simp)
    unfold normalizeAux
    rw [if_neg hc.1, if_neg hc.2, ih (acc ++ [c]) (fun x hx => h x (by simp [hx]))]
    simp

theorem normalizeComponents_idem (l : List String) :
    normalizeComponents (normalizeComponents l) = normalizeComponents l := by
  unfold normalizeComponents
  rw [normalizeAux_of_clean _ [] (mem_normalizeAux l [] (by simp))]
  simp

theorem create_dir_all_mem (fs fs1 : FileSystem) (p : Path) (q : List String)
    (h : fs.create_dir_all p = .ok fs1) (hq : q ∈ pathAncestors (fs.resolve p)) :
    q ∈ fs1.dirs := by
  unfold FileSystem.create_dir_all at h
  by_cases hf : (pathAncestors (fs.resolve p)).any (fun r => fs.isFile r) = true
  · rw [if_pos hf] at h
    exact Except.noConfusion h
  · rw [if_neg hf] at h
    injection h with h1
    subst h1
    show q ∈ fs.dirs ++ _
    by_cases hm : q ∈ fs.dirs
    · exact List.mem_append_left _ hm
    · exact List.mem_append_right _ (List.mem_filter.2 ⟨hq, by simp [hm]⟩)

theorem resolve_output_dir_none_spec (fs : FileSystem) (input : Path)
    (fs1 : FileSystem) (p : Path)
    (h : resolve_output_dir fs input none = .ok (fs1, p)) :
    p.absolute = true ∧ fs1.entryExists p.components = true ∧
    normalizeComponents p.components = p.components := by
  simp only [resolve_output_dir] at h
  cases hc : fs.create_dir_all (input.join ⟨false, ["public"]⟩) with
  | error e =>
    rw [hc] at h
    simp at h
  | ok fsc =>
    rw [hc] at h
    simp only [] at h
    cases hc2 : fsc.canonicalize (input.join ⟨false, ["public"]⟩) with
    | error e =>
      rw [hc2] at h
      simp at h
    | ok q =>
      rw [hc2] at h
      simp only [Except.ok.injEq, Prod.mk.injEq] at h
      obtain ⟨hfs, hp⟩ := h
      rw [← hfs, ← hp]
      simp only [FileSystem.canonicalize] at hc2
      by_cases hex : fsc.entryExists (fsc.resolve (input.join ⟨false, ["public"]⟩)) = true
      · rw [if_pos hex] at hc2
        injection hc2 with hq
        rw [← hq]
        exact ⟨rfl, hex, normalizeComponents_idem _⟩
      · rw [if_neg hex] at hc2
        exact Except.noConfusion hc2

/-! ### Theorems about the orchestrator -/

/-- C7: a readable import-map file whose content the external parser rejects
makes the orchestrator fail with a message carrying the raw content and the
file path, and an unreadable or missing file makes it fail with a message
carrying the attempted path (each wrapping the underlying cause). -/
theorem import_map_failure_messages :
    (∀ (fs : FileSystem) (pim : String → Except String ImportMap) (input : Path)
        (contents e : String),
        fs.read_to_string (import_map_filepath input) = .ok contents →
        pim contents = .error e →
        load_import_map fs pim input =
          .error ("Failed to parse import map from content `" ++ contents ++
            "` at `" ++ (import_map_filepath input).display ++ "`: " ++ e)) ∧
    (∀ (fs : FileSystem) (pim : String → Except String ImportMap) (input : Path)
        (e : String),
        fs.read_to_string (import_map_filepath input) = .error e →
        load_import_map fs pim input =
          .error ("Failed to read `import-map.json` from `" ++
            (import_map_filepath input).display ++ "`: " ++ e)) := by
  constructor
  · intro fs pim input contents e h1 h2
    simp [load_import_map, h1, h2]
  · intro fs pim input e h1
    simp [load_import_map, h1]

/-- The input directory `/proj` used by the concrete orchestrator runs. -/
def exampleInputDir : Path := ⟨true, ["proj"]⟩

/-- A file system in which `/proj/public/web_modules/import-map.json` exists
with content `\x7b\x7d` and the `public` tree is already in place. -/
def exampleFs : FileSystem :=
  { cwd := ["home"],
    dirs := [["proj"], ["proj", "public"], ["proj", "public", "web_modules"]],
    files := [(["proj", "public", "web_modules", "import-map.json"], "\x7b\x7d")] }

/-- An import-map parser that accepts anything (the external parser on valid
content). -/
def exampleAcceptingParser : String → Except String ImportMap := fun _ => .ok ⟨[]⟩

/-- An import-map parser that rejects anything (the external parser on
malformed content). -/
def exampleRejectingParser : String → Except String ImportMap :=
  fun _ => .error "invalid import map"

/-- Witness for C7: a concrete file system and rejecting parser produce the
parse-failure message with the raw content and the path. -/
theorem import_map_failure_messages_witness :
    load_import_map exampleFs exampleRejectingParser exampleInputDir =
      .error ("Failed to parse import map from content `" ++ "\x7b\x7d" ++
        "` at `" ++ (import_map_filepath exampleInputDir).display ++ "`: " ++
        "invalid import map") :=
  import_map_failure_messages.1 exampleFs exampleRejectingParser exampleInputDir
    "\x7b\x7d" "invalid import map" (by rfl) (by rfl)

/-- C8: with input directory `/proj` and no explicit output directory, a run
that reaches the engine hands it exactly the canonical absolute directory
`/proj/public`, with that directory and its missing ancestors created; and
every failure of this resolution is wrapped with a message naming the failing
sub-step (creation vs. canonicalization). -/
theorem default_output_dir_created_and_canonicalized (fs : FileSystem) :
    (∀ (fs1 : FileSystem) (p : Path),
        resolve_output_dir fs ⟨true, ["proj"]⟩ none = .ok (fs1, p) →
        p = ⟨true, ["proj", "public"]⟩ ∧
        ["proj"] ∈ fs1.dirs ∧ ["proj", "public"] ∈ fs1.dirs) ∧
    (∀ e : String,
        resolve_output_dir fs ⟨true, ["proj"]⟩ none = .error e →
        (∃ c, e = "Failed create directories for path `/proj/public`: " ++ c) ∨
        (∃ c, e = "Failed canonicalize the output directory path: " ++ c)) := by
  constructor
  · intro fs1 p h
    simp only [resolve_output_dir] at h
    cases hc : fs.create_dir_all ((⟨true, ["proj"]⟩ : Path).join ⟨false, ["public"]⟩) with
    | error e =>
      rw [hc] at h
      simp at h
    | ok fsc =>
      rw [hc] at h
      simp only [] at h
      cases hc2 : fsc.canonicalize ((⟨true, ["proj"]⟩ : Path).join ⟨false, ["public"]⟩) with
      | error e =>
        rw [hc2] at h
        simp at h
      | ok q =>
        rw [hc2] at h
        simp only [Except.ok.injEq, Prod.mk.injEq] at h
        obtain ⟨hfs, hp⟩ := h
        rw [← hfs, ← hp]
        have hq : q = ⟨true, ["proj", "public"]⟩ := by
          simp only [FileSystem.canonicalize] at hc2
          by_cases hex : fsc.entryExists
              (fsc.resolve ((⟨true, ["proj"]⟩ : Path).join ⟨false, ["public"]⟩)) = true
          · rw [if_pos hex] at hc2
            injection hc2 with hq2
            exact hq2.symm
          · rw [if_neg hex] at hc2
            exact Except.noConfusion hc2
        have hres : fs.resolve ((⟨true, ["proj"]⟩ : Path).join ⟨false, ["public"]⟩) =
            ["proj", "public"] := rfl
        refine ⟨hq, ?_, ?_⟩
        · exact create_dir_all_mem fs fsc _ ["proj"] hc (by rw [hres]; decide)
        · exact create_dir_all_mem fs fsc _ ["proj", "public"] hc (by rw [hres]; decide)
  · intro e h
    simp only [resolve_output_dir] at h
    cases hc : fs.create_dir_all ((⟨true, ["proj"]⟩ : Path).join ⟨false, ["public"]⟩) with
    | error e1 =>
      rw [hc] at h
      simp only [Except.error.injEq] at h
      left
      exact ⟨e1, h.symm⟩
    | ok fsc =>
      rw [hc] at h
      simp only [] at h
      cases hc2 : fsc.canonicalize ((⟨true, ["proj"]⟩ : Path).join ⟨false, ["public"]⟩) with
      | error e2 =>
        rw [hc2] at h
        simp only [Except.error.injEq] at h
        right
        exact ⟨e2, h.symm⟩
      | ok q =>
        rw [hc2] at h
        simp at h

/-- Witness for C8: on `exampleFs` the default resolution succeeds and the
success conclusions hold concretely. -/
theorem default_output_dir_created_and_canonicalized_witness :
    (⟨true, ["proj", "public"]⟩ : Path) = ⟨true, ["proj", "public"]⟩ ∧
    ["proj"] ∈ exampleFs.dirs ∧ ["proj", "public"] ∈ exampleFs.dirs :=
  (default_output_dir_created_and_canonicalized exampleFs).1 exampleFs
    ⟨true, ["proj", "public"]⟩ (by rfl)

/-- C2 counterexample: a run that reaches the engine invocation with an
explicitly supplied relative output directory hands the engine that relative,
non-canonicalized path verbatim, so the claimed invariant fails for the
explicit case. -/
theorem output_dir_explicit_verbatim_counterexample :
    assemble_config exampleFs exampleAcceptingParser "npm-bin" false exampleInputDir
        (some ⟨false, ["rel", "out"]⟩) =
      .ok (exampleFs,
        { debug := false, project_root_dir := exampleInputDir,
          output_dir := ⟨false, ["rel", "out"]⟩, npm_bin_dir := "npm-bin",
          import_map := ⟨[]⟩ }) ∧
    (Path.mk false ["rel", "out"]).absolute = false :=
  ⟨rfl, rfl⟩

/-- C2 as amended: when the output directory is derived (none supplied), every
run reaching the engine hands it an absolute, existing, canonical
(normalization-stable) path; an explicitly supplied directory, however, is
passed through verbatim with the file system untouched. -/
theorem output_dir_invariant_amended :
    (∀ (fs : FileSystem) (pim : String → Except String ImportMap) (npm : String)
        (dbg : Bool) (input : Path) (fs1 : FileSystem) (opts : IncrementalOpts),
        assemble_config fs pim npm dbg input none = .ok (fs1, opts) →
        opts.output_dir.absolute = true ∧
        fs1.entryExists opts.output_dir.components = true ∧
        normalizeComponents opts.output_dir.components = opts.output_dir.components) ∧
    (∀ (fs : FileSystem) (pim : String → Except String ImportMap) (npm : String)
        (dbg : Bool) (input : Path) (v : Path) (fs1 : FileSystem)
        (opts : IncrementalOpts),
        assemble_config fs pim npm dbg input (some v) = .ok (fs1, opts) →
        opts.output_dir = v ∧ fs1 = fs) := by
  constructor
  · intro fs pim npm dbg input fs1 opts h
    unfold assemble_config at h
    cases hl : load_import_map fs pim input with
    | error e =>
      rw [hl] at h
      simp at h
    | ok im =>
      rw [hl] at h
      simp only [] at h
      cases hr : resolve_output_dir fs input none with
      | error e =>
        rw [hr] at h
        simp at h
      | ok pr =>
        obtain ⟨fsr, od⟩ := pr
        rw [hr] at h
        simp only [Except.ok.injEq, Prod.mk.injEq] at h
        obtain ⟨hfs, hopts⟩ := h
        subst hfs
        subst hopts
        exact resolve_output_dir_none_spec fs input fsr od hr
  · intro fs pim npm dbg input v fs1 opts h
    unfold assemble_config at h
    cases hl : load_import_map fs pim input with
    | error e =>
      rw [hl] at h
      simp at h
    | ok im =>
      rw [hl] at h
      simp only [] at h
      simp only [resolve_output_dir, Except.ok.injEq, Prod.mk.injEq] at h
      obtain ⟨hfs, hopts⟩ := h
      subst hfs
      subst hopts
      exact ⟨rfl, rfl⟩

/-- The configuration assembled by the derived-output-directory run on
`exampleFs`. -/
def exampleDerivedOpts : IncrementalOpts :=
  { debug := false, project_root_dir := exampleInputDir,
    output_dir := ⟨true, ["proj", "public"]⟩, npm_bin_dir := "npm-bin",
    import_map := ⟨[]⟩ }

/-- Witness for C2 (amended): the derived-case conclusions hold on a concrete
successful run. -/
theorem output_dir_invariant_amended_witness :
    exampleDerivedOpts.output_dir.absolute = true ∧
    exampleFs.entryExists exampleDerivedOpts.output_dir.components = true ∧
    normalizeComponents exampleDerivedOpts.output_dir.components =
      exampleDerivedOpts.output_dir.components :=
  output_dir_invariant_amended.1 exampleFs exampleAcceptingParser "npm-bin" false
    exampleInputDir exampleFs exampleDerivedOpts (by rfl)

end Toast
